import Mathlib

/-!
Verification of the DPD demo driver (`dpd_demo.py`) of pyHNC.

The embedding is a shallow one over exact rationals: the script's float64
arrays become `List ℚ`, the numpy constant `π` becomes an explicit rational
parameter `pi` (every property proved here is an algebraic identity that
holds for any value of that constant), and the numpy primitives used on the
thermodynamic-integration lines (`np.trapz`, elementwise `*` with its
broadcasting rule) are modelled by executable Lean functions below.
-/

set_option autoImplicit false

namespace PyHNC

/-- Modelled from the spec: `truncate_to_zero` is defined in the pyHNC package
itself, whose source is not part of this development; per the spec (§4.1) it
keeps the supplied values at radii strictly below the cutoff and makes the
values at radii at or beyond the cutoff exactly zero. -/
def truncate_to_zero (v r : List ℚ) (rc : ℚ) : List ℚ :=
  (v.zip r).map fun pr => if pr.2 < rc then pr.1 else 0

/-- The DPD potential built by the script: `φ = truncate_to_zero(A/2*(1-r)**2, r, 1)`. -/
def φ (A : ℚ) (r : List ℚ) : List ℚ :=
  truncate_to_zero (r.map fun x => A/2*(1-x)^2) r 1

/-- The DPD force built by the script: `f = truncate_to_zero(A*(1-r), r, 1)`. -/
def f (A : ℚ) (r : List ℚ) : List ℚ :=
  truncate_to_zero (r.map fun x => A*(1-x)) r 1

/-- `np.trapz(y, dx=Δr)`: composite trapezoidal rule with uniform spacing,
`Σ_i dx*(y_i + y_{i+1})/2`; zero on arrays of fewer than two samples. -/
def trapz (dx : ℚ) (ys : List ℚ) : ℚ :=
  (List.zipWith (fun a b => dx * (a + b) / 2) ys ys.tail).sum

/-- Failure of a numpy elementwise binary operation on 1-D arrays of
incompatible shapes (numpy raises `ValueError: operands could not be
broadcast together`). -/
inductive IntegrateError where
  | shapeMismatch
deriving DecidableEq, Repr

/-- numpy elementwise product of two 1-D arrays: equal lengths multiply
index by index; a length-1 operand is broadcast across the other; any other
length combination is a shape error. -/
def bmul (xs ys : List ℚ) : Except IntegrateError (List ℚ) :=
  if xs.length = ys.length then Except.ok (List.zipWith (fun a b => a * b) xs ys)
  else if ys.length = 1 then Except.ok (xs.map fun a => a * ys.headI)
  else if xs.length = 1 then Except.ok (ys.map fun b => xs.headI * b)
  else Except.error IntegrateError.shapeMismatch

instance {ε α : Type} [DecidableEq ε] [DecidableEq α] : DecidableEq (Except ε α) := fun x y =>
  match x, y with
  | Except.ok a, Except.ok b =>
    if h : a = b then Decidable.isTrue (by rw [h])
    else Decidable.isFalse (fun hc => h (Except.ok.inj hc))
  | Except.error a, Except.error b =>
    if h : a = b then Decidable.isTrue (by rw [h])
    else Decidable.isFalse (fun hc => h (Except.error.inj hc))
  | Except.ok _, Except.error _ => Decidable.isFalse (fun hc => Except.noConfusion hc)
  | Except.error _, Except.ok _ => Decidable.isFalse (fun hc => Except.noConfusion hc)

/-- The two scalars the script reports. -/
structure ThermodynamicResult where
  e : ℚ
  p : ℚ
deriving DecidableEq, Repr

/-- The thermodynamic-integration lines of the script:
`e = 2*π*ρ**2 * (A/60 + np.trapz(r**2*φ*hr, dx=Δr))` and
`p = ρ + 2*π*ρ**2/3 * (A/20 + np.trapz(r**3*f*hr, dx=Δr))`,
with the elementwise products left-associated as in the source. -/
def integrate (pi A ρ Δr : ℚ) (r φv fv hr : List ℚ) :
    Except IntegrateError ThermodynamicResult := do
  let a ← bmul (r.map fun x => x^2) φv
  let ea ← bmul a hr
  let b ← bmul (r.map fun x => x^3) fv
  let pb ← bmul b hr
  Except.ok
    { e := 2*pi*ρ^2 * (A/60 + trapz Δr ea)
    , p := ρ + 2*pi*ρ^2/3 * (A/20 + trapz Δr pb) }

/-- One line of the stdout report.  The payload of each constructor records the
values interpolated into the corresponding format string of the script. -/
inductive Line where
  | model (A ρ : ℚ)
  | monteCarlo
  | computed (version : String) (e p : ℚ)
  | sunlightLine (version : String) (uex press : ℚ)
deriving DecidableEq, Repr

/-- What the SunlightHNC reference engine reports (version string, excess
energy, virial pressure); an opaque input to the script's report. -/
structure RefOutput where
  version : String
  uex : ℚ
  press : ℚ
deriving DecidableEq, Repr

/-- The solver's output: real-space correlation `hr` and Fourier-space
correlation `hq` (`soln.hr`, `soln.hq` in the script). -/
structure SolverOutput where
  hr : List ℚ
  hq : List ℚ
deriving DecidableEq, Repr

/-- The print statements of the script: the model line; the Monte-Carlo
literature line exactly when `A == 25 and ρ == 3`; the computed-values line;
and the SunlightHNC line exactly when `--sunlight` was given. -/
def report (A ρ : ℚ) (version : String) (e p : ℚ) (sunlight : Bool)
    (ref : RefOutput) : List Line :=
  [Line.model A ρ]
    ++ (if A = 25 ∧ ρ = 3 then [Line.monteCarlo] else [])
    ++ [Line.computed version e p]
    ++ (if sunlight then [Line.sunlightLine ref.version ref.uex ref.press] else [])

/-- The computed-values lines of a report. -/
def computedLines (ls : List Line) : List Line :=
  ls.filter fun l =>
    match l with
    | Line.computed _ _ _ => true
    | _ => false

/-- The g(r) data handed to the plotting collaborator: the script computes
`gr = 1.0 + hr`, then masks both coordinate and value arrays with
`cut = r < args.rmax` (strict) before calling `plt.plot(r[cut], gr[cut])`.
Here each retained grid point is paired with its plotted value. -/
def grPlotData (r hr : List ℚ) (rmax : ℚ) : List (ℚ × ℚ) :=
  (r.zip (hr.map fun h => 1 + h)).filter fun pr => pr.1 < rmax

/-- The S(q) data handed to the plotting collaborator: `sq = 1.0 + ρ*hq`,
masked with `cut = q < args.qmax` (strict). -/
def sqPlotData (q : List ℚ) (ρ : ℚ) (hq : List ℚ) (qmax : ℚ) : List (ℚ × ℚ) :=
  (q.zip (hq.map fun h => 1 + ρ * h)).filter fun pr => pr.1 < qmax

/-- Everything the script emits downstream of the solve. -/
structure DemoOutput where
  result : ThermodynamicResult
  lines : List Line
  grPlot : List (ℚ × ℚ)
  sqPlot : List (ℚ × ℚ)
deriving DecidableEq, Repr

/-- The demo pipeline from the solve onwards: build φ and f, integrate against
the solver's `hr`, print the report, and prepare the plot data.  The
`sunlight` flag and the reference output enter only the report; the solver's
`hq` enters only the structure-factor plot. -/
def runDemo (pi A ρ Δr rmax qmax : ℚ) (r q : List ℚ) (soln : SolverOutput)
    (sunlight : Bool) (ref : RefOutput) (version : String) :
    Except IntegrateError DemoOutput := do
  let res ← integrate pi A ρ Δr r (φ A r) (f A r) soln.hr
  Except.ok
    { result := res
    , lines := report A ρ version res.e res.p sunlight ref
    , grPlot := grPlotData r soln.hr rmax
    , sqPlot := sqPlotData q ρ soln.hq qmax }

lemma truncate_map (g : ℚ → ℚ) (r : List ℚ) (rc : ℚ) :
    truncate_to_zero (r.map g) r rc = r.map fun x => if x < rc then g x else 0 := by
  induction r with
  | nil => rfl
  | cons x t ih =>
    simp only [truncate_to_zero, List.map_cons, List.zip_cons_cons] at ih ⊢
    exact congrArg _ ih

lemma φ_eq_map (A : ℚ) (r : List ℚ) :
    φ A r = r.map fun x => if x < 1 then A/2*(1-x)^2 else 0 :=
  truncate_map _ r 1

lemma f_eq_map (A : ℚ) (r : List ℚ) :
    f A r = r.map fun x => if x < 1 then A*(1-x) else 0 :=
  truncate_map _ r 1

lemma φ_length (A : ℚ) (r : List ℚ) : (φ A r).length = r.length := by
  rw [φ_eq_map]; exact List.length_map r _

lemma f_length (A : ℚ) (r : List ℚ) : (f A r).length = r.length := by
  rw [f_eq_map]; exact List.length_map r _

lemma trapz_zero (dx : ℚ) (ys : List ℚ) (h : ∀ y ∈ ys, y = 0) : trapz dx ys = 0 := by
  induction ys with
  | nil => rfl
  | cons x t ih =>
    cases t with
    | nil => rfl
    | cons y t2 =>
      have hx : x = 0 := h x (List.mem_cons_self x _)
      have hy : y = 0 := h y (List.mem_cons_of_mem x (List.mem_cons_self y _))
      have ht : ∀ z ∈ y :: t2, z = 0 := fun z hz => h z (List.mem_cons_of_mem x hz)
      have ih2 := ih ht
      simp only [trapz, List.tail_cons, List.zipWith_cons_cons, List.sum_cons] at ih2 ⊢
      rw [ih2, hx, hy]
      ring

lemma zipWith_mul_zero_right (xs ys : List ℚ) (h : ∀ y ∈ ys, y = 0) :
    ∀ z ∈ List.zipWith (fun a b => a * b) xs ys, z = 0 := by
  induction xs generalizing ys with
  | nil => simp
  | cons x xs ih =>
    cases ys with
    | nil => simp
    | cons y ys2 =>
      intro z hz
      rw [List.zipWith_cons_cons, List.mem_cons] at hz
      rcases hz with h1 | h2
      · rw [h1, h y (List.mem_cons_self y _), mul_zero]
      · exact ih ys2 (fun w hw => h w (List.mem_cons_of_mem y hw)) z h2

lemma zipWith_mul_zero_left (xs ys : List ℚ) (h : ∀ x ∈ xs, x = 0) :
    ∀ z ∈ List.zipWith (fun a b => a * b) xs ys, z = 0 := by
  induction xs generalizing ys with
  | nil => simp
  | cons x xs ih =>
    cases ys with
    | nil => simp
    | cons y ys2 =>
      intro z hz
      rw [List.zipWith_cons_cons, List.mem_cons] at hz
      rcases hz with h1 | h2
      · rw [h1, h x (List.mem_cons_self x _), zero_mul]
      · exact ih ys2 (fun w hw => h w (List.mem_cons_of_mem x hw)) z h2

lemma integrate_eq_ok (pi A ρ Δr : ℚ) (r φv fv hr : List ℚ)
    (hφ : φv.length = r.length) (hf : fv.length = r.length) (hh : hr.length = r.length) :
    integrate pi A ρ Δr r φv fv hr = Except.ok
      { e := 2*pi*ρ^2 * (A/60 + trapz Δr (List.zipWith (fun a b => a * b)
                (List.zipWith (fun a b => a * b) (r.map fun x => x^2) φv) hr))
      , p := ρ + 2*pi*ρ^2/3 * (A/20 + trapz Δr (List.zipWith (fun a b => a * b)
                (List.zipWith (fun a b => a * b) (r.map fun x => x^3) fv) hr)) } := by
  simp [integrate, bmul, Except.instMonad, Except.bind, List.length_zipWith, hφ, hf, hh]

/-- Claim C1: for every grid `(r, Δr)`, amplitude `A`, density `ρ`, potential
`φv`, force `fv`, and correlation array `hr` aligned with the grid, the
integration lines return exactly `e = 2πρ²·(A/60 + trapz(r²·φ·h, Δr))` and
`p = ρ + (2πρ²/3)·(A/20 + trapz(r³·f·h, Δr))`, with the mean-field constants
`A/60` and `A/20` appearing as additive closed-form offsets. -/
theorem C1_integrate_formula (pi A ρ Δr : ℚ) (r φv fv hr : List ℚ)
    (hφ : φv.length = r.length) (hf : fv.length = r.length) (hh : hr.length = r.length) :
    integrate pi A ρ Δr r φv fv hr = Except.ok
      { e := 2*pi*ρ^2 * (A/60 + trapz Δr (List.zipWith (fun a b => a * b)
                (List.zipWith (fun a b => a * b) (r.map fun x => x^2) φv) hr))
      , p := ρ + 2*pi*ρ^2/3 * (A/20 + trapz Δr (List.zipWith (fun a b => a * b)
                (List.zipWith (fun a b => a * b) (r.map fun x => x^3) fv) hr)) } :=
  integrate_eq_ok pi A ρ Δr r φv fv hr hφ hf hh

/-- Witness for C1 at a concrete grid of two points. -/
theorem C1_witness :
    (([1, 2] : List ℚ).length = ([0, 1/2] : List ℚ).length)
    ∧ (([3, 4] : List ℚ).length = ([0, 1/2] : List ℚ).length)
    ∧ (([5, 6] : List ℚ).length = ([0, 1/2] : List ℚ).length)
    ∧ integrate 3 25 3 (1/2) [0, 1/2] [1, 2] [3, 4] [5, 6]
        = Except.ok { e := 63, p := 39 } := by
  refine ⟨rfl, rfl, rfl, ?_⟩
  rw [C1_integrate_formula 3 25 3 (1/2) [0, 1/2] [1, 2] [3, 4] [5, 6] rfl rfl rfl]
  norm_num [trapz]

/-- Claim C2: for every amplitude `A` and every grid point, the built
potential is `(A/2)(1−r)²` for `r < 1` and exactly zero for `r ≥ 1`, and the
built force is `A(1−r)` for `r < 1` and exactly zero for `r ≥ 1`. -/
theorem C2_potential_pointwise (A : ℚ) (r : List ℚ) (i : ℕ) (hi : i < r.length) :
    (φ A r)[i]? = some (if r[i] < 1 then A/2*(1-r[i])^2 else 0)
    ∧ (f A r)[i]? = some (if r[i] < 1 then A*(1-r[i]) else 0) := by
  rw [φ_eq_map, f_eq_map]
  constructor <;> simp [List.getElem?_map, List.getElem?_eq_getElem hi]

/-- Witness for C2: at `r = 1/2` the potential is `25/8` and the force `25/2`. -/
theorem C2_witness :
    0 < ([1/2, 2] : List ℚ).length
    ∧ (φ 25 [1/2, 2])[0]? = some (25/8)
    ∧ (f 25 [1/2, 2])[0]? = some (25/2) := by
  have h := C2_potential_pointwise 25 [1/2, 2] 0 (by norm_num)
  refine ⟨by norm_num, ?_, ?_⟩
  · rw [h.1]; norm_num
  · rw [h.2]; norm_num

/-- Claim C4: if the correlation array is identically zero (mean-field limit),
the integration returns exactly `e = 2πρ²·A/60` and `p = ρ + 2πρ²·A/20/3`. -/
theorem C4_mean_field (pi A ρ Δr : ℚ) (r φv fv hr : List ℚ)
    (hφ : φv.length = r.length) (hf : fv.length = r.length) (hh : hr.length = r.length)
    (h0 : ∀ y ∈ hr, y = 0) :
    integrate pi A ρ Δr r φv fv hr
      = Except.ok { e := 2*pi*ρ^2*(A/60), p := ρ + 2*pi*ρ^2*(A/20)/3 } := by
  rw [integrate_eq_ok pi A ρ Δr r φv fv hr hφ hf hh]
  have t1 : trapz Δr (List.zipWith (fun a b => a * b)
      (List.zipWith (fun a b => a * b) (r.map fun x => x^2) φv) hr) = 0 :=
    trapz_zero _ _ (zipWith_mul_zero_right _ _ h0)
  have t2 : trapz Δr (List.zipWith (fun a b => a * b)
      (List.zipWith (fun a b => a * b) (r.map fun x => x^3) fv) hr) = 0 :=
    trapz_zero _ _ (zipWith_mul_zero_right _ _ h0)
  rw [t1, t2]
  simp only [Except.ok.injEq, ThermodynamicResult.mk.injEq]
  constructor <;> ring

/-- Witness for C4 on a two-point grid with `h ≡ 0`. -/
theorem C4_witness :
    (∀ y ∈ ([0, 0] : List ℚ), y = 0)
    ∧ integrate 3 25 3 (1/2) [0, 1/2] [1, 2] [3, 4] [0, 0]
        = Except.ok { e := 2*3*3^2*(25/60), p := 3 + 2*3*3^2*(25/20)/3 } :=
  ⟨by norm_num, C4_mean_field 3 25 3 (1/2) [0, 1/2] [1, 2] [3, 4] [0, 0] rfl rfl rfl (by norm_num)⟩

/-- Claim C5: with `A = 0` the built potential and force vanish at every grid
point, and for every solver correlation array aligned with the grid the
integration returns exactly `e = 0` and `p = ρ`. -/
theorem C5_ideal_gas (pi ρ Δr : ℚ) (r hr : List ℚ) (hh : hr.length = r.length) :
    (∀ v ∈ φ 0 r, v = 0) ∧ (∀ v ∈ f 0 r, v = 0)
    ∧ integrate pi 0 ρ Δr r (φ 0 r) (f 0 r) hr = Except.ok { e := 0, p := ρ } := by
  have hφ0 : ∀ v ∈ φ 0 r, v = 0 := by
    intro v hv
    rw [φ_eq_map] at hv
    obtain ⟨x, hx, rfl⟩ := List.mem_map.mp hv
    split_ifs <;> norm_num
  have hf0 : ∀ v ∈ f 0 r, v = 0 := by
    intro v hv
    rw [f_eq_map] at hv
    obtain ⟨x, hx, rfl⟩ := List.mem_map.mp hv
    split_ifs <;> norm_num
  refine ⟨hφ0, hf0, ?_⟩
  rw [integrate_eq_ok pi 0 ρ Δr r (φ 0 r) (f 0 r) hr (φ_length 0 r) (f_length 0 r) hh]
  have t1 : trapz Δr (List.zipWith (fun a b => a * b)
      (List.zipWith (fun a b => a * b) (r.map fun x => x^2) (φ 0 r)) hr) = 0 :=
    trapz_zero _ _ (zipWith_mul_zero_left _ _ (zipWith_mul_zero_right _ _ hφ0))
  have t2 : trapz Δr (List.zipWith (fun a b => a * b)
      (List.zipWith (fun a b => a * b) (r.map fun x => x^3) (f 0 r)) hr) = 0 :=
    trapz_zero _ _ (zipWith_mul_zero_left _ _ (zipWith_mul_zero_right _ _ hf0))
  rw [t1, t2]
  simp only [Except.ok.injEq, ThermodynamicResult.mk.injEq]
  constructor <;> ring

/-- Witness for C5 on a two-point grid with a nonzero correlation array. -/
theorem C5_witness :
    (([5, 7] : List ℚ).length = ([0, 1/2] : List ℚ).length)
    ∧ ((∀ v ∈ φ 0 [0, 1/2], v = 0) ∧ (∀ v ∈ f 0 [0, 1/2], v = 0)
        ∧ integrate 3 0 3 (1/2) [0, 1/2] (φ 0 [0, 1/2]) (f 0 [0, 1/2]) [5, 7]
            = Except.ok { e := 0, p := 3 }) :=
  ⟨rfl, C5_ideal_gas 3 3 (1/2) [0, 1/2] [5, 7] rfl⟩

/-- Claim C10: for `A ≥ 0` and nonnegative grid points, the built potential
and force are nonnegative everywhere (the truncation clamps the negative
branch of `A(1−r)` to zero). -/
theorem C10_nonneg (A : ℚ) (hA : 0 ≤ A) (r : List ℚ) (hr : ∀ x ∈ r, 0 ≤ x) :
    (∀ v ∈ φ A r, 0 ≤ v) ∧ (∀ v ∈ f A r, 0 ≤ v) := by
  constructor
  · intro v hv
    rw [φ_eq_map] at hv
    obtain ⟨x, hx, rfl⟩ := List.mem_map.mp hv
    split_ifs
    · exact mul_nonneg (by linarith) (sq_nonneg _)
    · exact le_refl 0
  · intro v hv
    rw [f_eq_map] at hv
    obtain ⟨x, hx, rfl⟩ := List.mem_map.mp hv
    split_ifs with hlt
    · exact mul_nonneg hA (by linarith)
    · exact le_refl 0

/-- Witness for C10 at `A = 25` on a grid straddling the cutoff. -/
theorem C10_witness :
    (0:ℚ) ≤ 25 ∧ (∀ x ∈ ([0, 1/2, 2] : List ℚ), 0 ≤ x)
    ∧ ((∀ v ∈ φ 25 [0, 1/2, 2], 0 ≤ v) ∧ (∀ v ∈ f 25 [0, 1/2, 2], 0 ≤ v)) :=
  ⟨by norm_num, by norm_num, C10_nonneg 25 (by norm_num) [0, 1/2, 2] (by norm_num)⟩

/-- Counterexample to claim C3 as stated: a correlation array of length 1
against a grid of length 2 does not make the integration fail — numpy
broadcasting silently expands the length-1 array and the computation
proceeds. -/
theorem C3_counterexample :
    integrate 3 25 3 (1/2) [0, 1/2] (φ 25 [0, 1/2]) (f 25 [0, 1/2]) [1]
      ≠ Except.error IntegrateError.shapeMismatch := by
  simp [integrate, bmul, Except.instMonad, Except.bind, φ_length, f_length,
    List.length_zipWith]

/-- Claim C3 as amended: with a potential array of length `n` and a
correlation array of length `m`, when `m ≠ n` and neither length is 1 the
integration fails with the shape-mismatch error; a length-1 operand is
instead broadcast. -/
theorem C3_shape_mismatch (pi A ρ Δr : ℚ) (r φv fv hr : List ℚ)
    (hφ : φv.length = r.length) (hf : fv.length = r.length)
    (hm : hr.length ≠ r.length) (hm1 : hr.length ≠ 1) (hn1 : r.length ≠ 1) :
    integrate pi A ρ Δr r φv fv hr = Except.error IntegrateError.shapeMismatch := by
  have hm' : r.length ≠ hr.length := Ne.symm hm
  simp [integrate, bmul, Except.instMonad, Except.bind, List.length_zipWith,
    hφ, hf, hm', hm1, hn1]

/-- Witness for the amended C3 with lengths 3 versus 2. -/
theorem C3_witness :
    (([1, 2] : List ℚ).length = ([0, 1/2] : List ℚ).length)
    ∧ (([3, 4] : List ℚ).length = ([0, 1/2] : List ℚ).length)
    ∧ (([5, 6, 7] : List ℚ).length ≠ ([0, 1/2] : List ℚ).length)
    ∧ (([5, 6, 7] : List ℚ).length ≠ 1)
    ∧ (([0, 1/2] : List ℚ).length ≠ 1)
    ∧ integrate 3 25 3 (1/2) [0, 1/2] [1, 2] [3, 4] [5, 6, 7]
        = Except.error IntegrateError.shapeMismatch :=
  ⟨rfl, rfl, by decide, by decide, by decide,
    C3_shape_mismatch 3 25 3 (1/2) [0, 1/2] [1, 2] [3, 4] [5, 6, 7] rfl rfl
      (by decide) (by decide) (by decide)⟩

/-- Claim C6: toggling the `--sunlight` comparison changes neither the
computed thermodynamic result nor the line reporting it; the reference
output never feeds back into the primary computation. -/
theorem C6_sunlight_independent (pi A ρ Δr rmax qmax : ℚ) (r q : List ℚ)
    (soln : SolverOutput) (ref : RefOutput) (v : String) :
    (runDemo pi A ρ Δr rmax qmax r q soln true ref v).map DemoOutput.result
      = (runDemo pi A ρ Δr rmax qmax r q soln false ref v).map DemoOutput.result
    ∧ (runDemo pi A ρ Δr rmax qmax r q soln true ref v).map (fun o => computedLines o.lines)
      = (runDemo pi A ρ Δr rmax qmax r q soln false ref v).map (fun o => computedLines o.lines) := by
  cases h : integrate pi A ρ Δr r (φ A r) (f A r) soln.hr with
  | error err =>
    constructor <;> simp [runDemo, h, Except.map, Except.instMonad, Except.bind]
  | ok res =>
    constructor <;>
      simp [runDemo, h, Except.map, Except.instMonad, Except.bind, computedLines,
        report, List.filter_append]

/-- Claim C7: the Monte-Carlo literature line is printed exactly when
`A = 25` and `ρ = 3`, while the model line and the computed-values line are
always printed. -/
theorem C7_report_lines (A ρ e p : ℚ) (v : String) (s : Bool) (ref : RefOutput) :
    (Line.monteCarlo ∈ report A ρ v e p s ref ↔ (A = 25 ∧ ρ = 3))
    ∧ Line.model A ρ ∈ report A ρ v e p s ref
    ∧ Line.computed v e p ∈ report A ρ v e p s ref := by
  by_cases h : A = 25 ∧ ρ = 3 <;> cases s <;> simp [report, h]

lemma zip_map_filter (g : ℚ → ℚ) (c : ℚ) (xs ys : List ℚ) :
    ((xs.zip (ys.map g)).filter fun pr => pr.1 < c)
      = ((xs.zip ys).filter fun pr => pr.1 < c).map fun pr => (pr.1, g pr.2) := by
  induction xs generalizing ys with
  | nil => simp
  | cons x xs ih =>
    cases ys with
    | nil => simp
    | cons y ys2 =>
      by_cases hx : x < c <;>
        simp [List.zip_cons_cons, List.filter_cons, hx, ih]

/-- Claim C8: the plotting collaborator receives exactly the derived fields
`g(r) = 1 + h(r)` and `S(q) = 1 + ρ·ĥ(q)`, restricted to the grid points
with `r < rmax` respectively `q < qmax` (strict). -/
theorem C8_plot_handoff (r q hr hq : List ℚ) (ρ rmax qmax : ℚ) :
    grPlotData r hr rmax
      = ((r.zip hr).filter fun pr => pr.1 < rmax).map (fun pr => (pr.1, 1 + pr.2))
    ∧ sqPlotData q ρ hq qmax
      = ((q.zip hq).filter fun pr => pr.1 < qmax).map (fun pr => (pr.1, 1 + ρ * pr.2)) :=
  ⟨zip_map_filter _ rmax r hr, zip_map_filter _ qmax q hq⟩

/-- Claim C9: the thermodynamic result depends only on the real-space
correlation `hr`; two solver outputs that agree on `hr` give identical
results however their `hq` differ. -/
theorem C9_hq_independent (pi A ρ Δr rmax qmax : ℚ) (r q : List ℚ)
    (s1 s2 : SolverOutput) (hhr : s1.hr = s2.hr) (sunlight : Bool)
    (ref : RefOutput) (v : String) :
    (runDemo pi A ρ Δr rmax qmax r q s1 sunlight ref v).map DemoOutput.result
      = (runDemo pi A ρ Δr rmax qmax r q s2 sunlight ref v).map DemoOutput.result := by
  cases h : integrate pi A ρ Δr r (φ A r) (f A r) s2.hr with
  | error err => simp [runDemo, hhr, h, Except.map, Except.instMonad, Except.bind]
  | ok res => simp [runDemo, hhr, h, Except.map, Except.instMonad, Except.bind]

/-- Witness for C9: two solver outputs with equal `hr` and different `hq`. -/
theorem C9_witness :
    (SolverOutput.mk [0] [1]).hr = (SolverOutput.mk [0] [2]).hr
    ∧ (runDemo 3 25 3 (1/2) 3 25 [1/2] [1] (SolverOutput.mk [0] [1]) false
        (RefOutput.mk "s" 0 0) "v").map DemoOutput.result
      = (runDemo 3 25 3 (1/2) 3 25 [1/2] [1] (SolverOutput.mk [0] [2]) false
        (RefOutput.mk "s" 0 0) "v").map DemoOutput.result :=
  ⟨rfl, C9_hq_independent 3 25 3 (1/2) 3 25 [1/2] [1] (SolverOutput.mk [0] [1])
    (SolverOutput.mk [0] [2]) rfl false (RefOutput.mk "s" 0 0) "v"⟩

end PyHNC
